import Mathlib

/-
  Shallow embedding of the agent-orchestration core of the Hackathon_2 AI-Chat
  Todo backend:

  * `src/backend/src/services/mcp_tools.py`   (create/list/update/delete task tools)
  * `src/backend/src/services/agent.py`       (AgentService.chat, _execute_tool,
                                               rule-based fallback)
  * `src/backend/src/services/conversation.py` (ConversationService)
  * `src/backend/src/api/routes/chat.py`      (chat endpoint)

  Conventions of the embedding:
  * Python datetimes are modelled as an abstract tick `Db.now`; the claims under
    study never compare timestamps.
  * SQLAlchemy sessions are modelled by their committed state: a tool either
    commits (the returned `Db` reflects the write) or raises before commit
    (the `Db` is returned unchanged, matching the rollback).
  * Python exceptions are modelled with `Except String`; where a claim depends
    on an error text the exact source f-string is reproduced, other driver-level
    error texts are schematic.
  * Provider tool-call arguments are arbitrary JSON (`JVal`), as produced by
    `json.loads` on `tool_call.function.arguments`.
-/

namespace TodoChat

/-- JSON-like values, as produced by `json.loads` on provider tool arguments. -/
inductive JVal where
  | null
  | bool (b : Bool)
  | num (n : Int)
  | str (s : String)
  | arr (xs : List JVal)
  | obj (fields : List (String × JVal))

/-- A Python dict with JSON values (tool arguments, tool outputs). -/
abbrev Dict := List (String × JVal)

/-- Python truthiness (`bool(v)`) for JSON values. -/
def pyTruthy : JVal → Bool
  | .null => false
  | .bool b => b
  | .num n => n != 0
  | .str s => s != ""
  | .arr xs => !xs.isEmpty
  | .obj fs => !fs.isEmpty

/-- Python `len(v)`: defined for sized values, `none` models a `TypeError`. -/
def pyLenJ : JVal → Option Nat
  | .str s => some s.length
  | .arr xs => some xs.length
  | .obj fs => some fs.length
  | _ => none

/-- Python `\s` whitespace characters (ASCII range, which is all the code uses). -/
def isPySpace (c : Char) : Bool :=
  c = ' ' || c = '\t' || c = '\n' || c = '\r' || c = '\x0b' || c = '\x0c'

/-- ASCII lowering of one character, as `str.lower()` does on ASCII input. -/
def asciiLowerChar (c : Char) : Char :=
  if 'A' ≤ c ∧ c ≤ 'Z' then Char.ofNat (c.toNat + 32) else c

/-- Python `s.lower()` (ASCII fragment). -/
def pyLower (s : String) : String :=
  String.mk (s.data.map asciiLowerChar)

/-- Python `s.strip()`: drop whitespace from both ends. -/
def pyStrip (s : String) : String :=
  String.mk (((s.data.dropWhile isPySpace).reverse.dropWhile isPySpace).reverse)

/-- Match a literal character sequence at the head, returning the rest. -/
def litPre : List Char → List Char → Option (List Char)
  | [], l => some l
  | _, [] => none
  | c :: cs, x :: xs => if c = x then litPre cs xs else none

/-- Whether `needle` occurs as a contiguous sublist of `hay`. -/
def containsSL (needle : List Char) : List Char → Bool
  | [] => (litPre needle []).isSome
  | l@(_ :: rest) => (litPre needle l).isSome || containsSL needle rest

/-- Python `needle in hay` on strings. -/
def pyIn (needle hay : String) : Bool :=
  containsSL needle.data hay.data

/-- Python `x or d` on an `Optional[int]`: `None` and `0` are falsy.
This is the exact semantics of `result.scalar() or -1` in
`ConversationService.add_message`. -/
def pyOrInt (x : Option Int) (d : Int) : Int :=
  match x with
  | none => d
  | some v => if v = 0 then d else v

/-- Row of the `task` table (`src/backend/src/models/task.py`). -/
structure Task where
  id : Nat
  title : String
  description : Option String
  completed : Bool
  user_id : Nat
  created_at : Nat
  updated_at : Nat
deriving Repr, DecidableEq

/-- Row of the `conversation` table (`src/backend/src/models/conversation.py`). -/
structure Conv where
  id : Nat
  user_id : Nat
  created_at : Nat
  updated_at : Nat
deriving Repr, DecidableEq

/-- One entry of an agent `tool_invocations` list:
`{"tool": ..., "inputs": ..., "outputs": ..., "error": ...}`. -/
structure Invocation where
  tool : String
  inputs : Dict
  outputs : Option Dict
  error : Option String

/-- Row of the `message` table (`src/backend/src/models/message.py`); the
`tool_invocations` JSON string column is modelled structurally. -/
structure MessageRec where
  id : Nat
  conversation_id : Nat
  role : String
  content : String
  sequence_number : Int
  created_at : Nat
  tool_invocations : Option (List Invocation)

/-- Row of the `tool_invocation_logs` table
(`src/backend/src/models/tool_invocation.py`); the JSON string columns
`inputs`/`outputs` are modelled structurally. -/
structure LogRec where
  id : Nat
  user_id : Nat
  message_id : Option Nat
  tool_name : String
  inputs : Dict
  outputs : Option Dict
  success : Bool
  error_message : Option String
  created_at : Nat

/-- Committed database state; `next*` counters model autoincrement primary
keys, `now` the current clock tick. -/
structure Db where
  tasks : List Task
  nextTaskId : Nat
  convs : List Conv
  nextConvId : Nat
  msgs : List MessageRec
  nextMsgId : Nat
  logs : List LogRec
  nextLogId : Nat
  now : Nat

/-- A database with no rows, with autoincrement counters at 1. -/
def emptyDb : Db :=
  { tasks := [], nextTaskId := 1, convs := [], nextConvId := 1,
    msgs := [], nextMsgId := 1, logs := [], nextLogId := 1, now := 0 }

/-- `datetime.isoformat()` of the modelled clock tick. -/
def isoTime (t : Nat) : String := toString t

/-- First value bound to key `k` in a dict, if any. -/
def dictGet (d : Dict) (k : String) : Option JVal :=
  (d.find? (fun p => p.1 == k)).map (fun p => p.2)

/-- Value bound to `k`, or a default (models a keyword argument default). -/
def dictGetD (d : Dict) (k : String) (v : JVal) : JVal :=
  match dictGet d k with
  | some w => w
  | none => v

/-- Whether key `k` is present in the dict. -/
def hasKey (d : Dict) (k : String) : Bool :=
  d.any (fun p => p.1 == k)

/-- Python `{**d, k: v}`: replace the value in place if the key exists,
otherwise append the binding. -/
def dictSet (d : Dict) (k : String) (v : JVal) : Dict :=
  if hasKey d k then d.map (fun p => if p.1 == k then (k, v) else p)
  else d ++ [(k, v)]

/-- `Option String` into JSON (`null` for Python `None`). -/
def optStrJ : Option String → JVal
  | some s => .str s
  | none => .null

/-- Python `f"{v}"` rendering of a tool argument; only the numeric case is used
by the claims, the rest is schematic. -/
def jShow : JVal → String
  | .num n => toString n
  | .str s => s
  | .bool true => "True"
  | .bool false => "False"
  | .null => "None"
  | .arr _ => "[array]"
  | .obj _ => "[object]"

/-- The result dict returned by `create_task` on success
(`mcp_tools.py` lines 59-65). -/
def taskDictCreate (t : Task) : Dict :=
  [("task_id", .num t.id), ("title", .str t.title),
   ("description", optStrJ t.description),
   ("completed", .bool t.completed),
   ("created_at", .str (isoTime t.created_at))]

/-- One task entry of the `list_tasks` result (`mcp_tools.py` lines 107-117). -/
def taskDictList (t : Task) : Dict :=
  [("task_id", .num t.id), ("title", .str t.title),
   ("description", optStrJ t.description),
   ("completed", .bool t.completed),
   ("created_at", .str (isoTime t.created_at)),
   ("updated_at", .str (isoTime t.updated_at))]

/-- The result dict returned by `update_task` on success
(`mcp_tools.py` lines 186-192). -/
def taskDictUpdate (t : Task) : Dict :=
  [("task_id", .num t.id), ("title", .str t.title),
   ("description", optStrJ t.description),
   ("completed", .bool t.completed),
   ("updated_at", .str (isoTime t.updated_at))]

/-- The INSERT/commit step of `create_task`: a string title and a string-or-null
description commit; other values that survived the `len` checks (lists/dicts)
fail at the driver and are rolled back. -/
def createCommit (title : JVal) (user_id : Nat) (db : Db) (description : JVal) :
    Except String Dict × Db :=
  let insert : String → Option String → Except String Dict × Db := fun ts ds =>
    let t : Task :=
      { id := db.nextTaskId, title := ts, description := ds, completed := false,
        user_id := user_id, created_at := db.now, updated_at := db.now }
    (.ok (taskDictCreate t),
     { db with tasks := db.tasks ++ [t], nextTaskId := db.nextTaskId + 1 })
  match title, description with
  | .str ts, .null => insert ts none
  | .str ts, .str ds => insert ts (some ds)
  | _, _ => (.error "Failed to create task: commit failed", db)

/-- `mcp_tools.create_task(title, user_id, db, description=None)`.
Validation follows the source order: `if not title or len(title) > 500`, then
`if description and len(description) > 5000`; a `len` on an unsized value is
the `TypeError` caught by the generic handler. -/
def create_task (title : JVal) (user_id : Nat) (db : Db) (description : JVal) :
    Except String Dict × Db :=
  if !pyTruthy title then
    (.error "Title must be between 1 and 500 characters", db)
  else
    match pyLenJ title with
    | none => (.error "Failed to create task: object has no len()", db)
    | some n =>
      if 500 < n then (.error "Title must be between 1 and 500 characters", db)
      else if pyTruthy description then
        match pyLenJ description with
        | none => (.error "Failed to create task: object has no len()", db)
        | some m =>
          if 5000 < m then
            (.error "Description must be less than 5000 characters", db)
          else createCommit title user_id db description
      else createCommit title user_id db description

/-- SQL `Task.completed == completed` with a bound parameter: booleans compare
as booleans, integers against the stored 0/1 (Python `True == 1`); parameters
of other JSON types match no row. -/
def sqlEqCompleted (b : Bool) : JVal → Bool
  | .bool c => b == c
  | .num n => (if b then (1 : Int) else 0) == n
  | _ => false

/-- `mcp_tools.list_tasks(user_id, db, completed=None)`:
`select(Task).where(Task.user_id == user_id)` plus the optional completion
filter; never fails. -/
def list_tasks (user_id : Nat) (db : Db) (completed : JVal) :
    Except String Dict × Db :=
  let base := db.tasks.filter (fun t => t.user_id == user_id)
  let sel :=
    match completed with
    | .null => base
    | v => base.filter (fun t => sqlEqCompleted t.completed v)
  (.ok [("tasks", .arr (sel.map (fun t => .obj (taskDictList t)))),
        ("total_count", .num sel.length)], db)

/-- The row predicate of `select(Task).where(Task.id == task_id,
Task.user_id == user_id)`: a non-integer `task_id` parameter matches no row. -/
def taskKeyMatch (t : Task) (task_id : JVal) (user_id : Nat) : Bool :=
  (match task_id with
   | .num n => (t.id : Int) == n
   | _ => false) && t.user_id == user_id

/-- Validation/assignment of the optional `title` argument of `update_task`:
returns the string to assign (if any) and whether a non-string value would
make the later commit fail. -/
def updTitle : JVal → Except String (Option String × Bool)
  | .null => .ok (none, false)
  | v =>
    if !pyTruthy v then .error "Title must be between 1 and 500 characters"
    else
      match pyLenJ v with
      | none => .error "Failed to update task: object has no len()"
      | some n =>
        if 500 < n then .error "Title must be between 1 and 500 characters"
        else
          match v with
          | .str s => .ok (some s, false)
          | _ => .ok (none, true)

/-- Validation/assignment of the optional `description` argument of
`update_task` (`if description is not None: if len(description) > 5000`). -/
def updDescr : JVal → Except String (Option String × Bool)
  | .null => .ok (none, false)
  | v =>
    match pyLenJ v with
    | none => .error "Failed to update task: object has no len()"
    | some m =>
      if 5000 < m then .error "Description must be less than 5000 characters"
      else
        match v with
        | .str s => .ok (some s, false)
        | _ => .ok (none, true)

/-- Assignment of the optional `completed` argument of `update_task`;
SQLAlchemy's Boolean column accepts bools and 0/1, anything else fails at
commit. -/
def updCompl : JVal → Option Bool × Bool
  | .null => (none, false)
  | .bool b => (some b, false)
  | .num 0 => (some false, false)
  | .num 1 => (some true, false)
  | _ => (none, true)

/-- The body of `update_task` once the (unique) matching row `t` was fetched:
validate/stage `title`, then `description`, then `completed` in source order,
set `updated_at`, commit the updated row. -/
def updateApply (t : Task) (task_id : JVal) (user_id : Nat) (db : Db)
    (title description completed : JVal) : Except String Dict × Db :=
  match updTitle title with
  | .error e => (.error e, db)
  | .ok tb =>
    match updDescr description with
    | .error e => (.error e, db)
    | .ok dd =>
      let cb := updCompl completed
      if tb.2 || dd.2 || cb.2 then
        (.error "Failed to update task: commit failed", db)
      else
        let updated : Task :=
          { t with
            title := tb.1.getD t.title,
            description := (match dd.1 with
              | some d => some d
              | none => t.description),
            completed := cb.1.getD t.completed,
            updated_at := db.now }
        (.ok (taskDictUpdate updated),
         { db with tasks := (db.tasks.map
             (fun x => if taskKeyMatch x task_id user_id then updated else x)) })

/-- `mcp_tools.update_task(task_id, user_id, db, title=None, description=None,
completed=None)`. `scalar_one_or_none` raises if several rows match; a failed
validation raises before commit, so the committed state is unchanged. -/
def update_task (task_id : JVal) (user_id : Nat) (db : Db)
    (title description completed : JVal) : Except String Dict × Db :=
  match db.tasks.filter (fun t => taskKeyMatch t task_id user_id) with
  | [] =>
    (.error ("Task " ++ jShow task_id ++ " not found or does not belong to user"),
     db)
  | [t] => updateApply t task_id user_id db title description completed
  | _ => (.error "Failed to update task: multiple rows found", db)

/-- The body of `delete_task` once the (unique) matching row was fetched. -/
def deleteApply (task_id : JVal) (user_id : Nat) (db : Db) :
    Except String Dict × Db :=
  (.ok [("success", .bool true), ("message", .str "Task deleted successfully"),
        ("deleted_task_id", task_id)],
   { db with tasks := (db.tasks.filter
       (fun x => !taskKeyMatch x task_id user_id)) })

/-- `mcp_tools.delete_task(task_id, user_id, db)`. -/
def delete_task (task_id : JVal) (user_id : Nat) (db : Db) :
    Except String Dict × Db :=
  match db.tasks.filter (fun t => taskKeyMatch t task_id user_id) with
  | [] =>
    (.error ("Task " ++ jShow task_id ++ " not found or does not belong to user"),
     db)
  | [_] => deleteApply task_id user_id db
  | _ => (.error "Failed to delete task: multiple rows found", db)

/-- Keyword binding of `tool_func(user_id=user_id, db=db, **tool_args)` for
`create_task`: any key outside the tool's own parameters (in particular a
provider-supplied `user_id`, which would collide with the injected one) is a
`TypeError` at the call site. -/
def bindOkCreate (args : Dict) : Bool :=
  args.all (fun p => p.1 == "title" || p.1 == "description") &&
    hasKey args "title"

/-- Keyword binding for `list_tasks`. -/
def bindOkList (args : Dict) : Bool :=
  args.all (fun p => p.1 == "completed")

/-- Keyword binding for `update_task`. -/
def bindOkUpdate (args : Dict) : Bool :=
  args.all (fun p =>
    p.1 == "task_id" || p.1 == "title" || p.1 == "description" ||
      p.1 == "completed") && hasKey args "task_id"

/-- Keyword binding for `delete_task`. -/
def bindOkDelete (args : Dict) : Bool :=
  args.all (fun p => p.1 == "task_id") && hasKey args "task_id"

/-- The `{"outputs": ..., "error": ...}` dict returned by
`AgentService._execute_tool`. -/
structure ToolResult where
  outputs : Option Dict
  error : Option String

/-- `return {"outputs": result, "error": None}` / the exception handler of
`_execute_tool`. -/
def toResult : Except String Dict × Db → ToolResult × Db
  | (.ok d, db) => ({ outputs := some d, error := none }, db)
  | (.error e, db) => ({ outputs := none, error := some e }, db)

/-- `AgentService._execute_tool(tool_name, tool_args, user_id, db)`: dispatch
over the tool map, with `user_id` and `db` injected as keyword arguments; every
exception is caught and turned into an error result. -/
def execute_tool (tool_name : String) (tool_args : Dict) (user_id : Nat)
    (db : Db) : ToolResult × Db :=
  if tool_name == "create_task" then
    if bindOkCreate tool_args then
      toResult (create_task (dictGetD tool_args "title" .null) user_id db
        (dictGetD tool_args "description" .null))
    else ({ outputs := none, error := some "TypeError: bad arguments for create_task" }, db)
  else if tool_name == "list_tasks" then
    if bindOkList tool_args then
      toResult (list_tasks user_id db (dictGetD tool_args "completed" .null))
    else ({ outputs := none, error := some "TypeError: bad arguments for list_tasks" }, db)
  else if tool_name == "update_task" then
    if bindOkUpdate tool_args then
      toResult (update_task (dictGetD tool_args "task_id" .null) user_id db
        (dictGetD tool_args "title" .null) (dictGetD tool_args "description" .null)
        (dictGetD tool_args "completed" .null))
    else ({ outputs := none, error := some "TypeError: bad arguments for update_task" }, db)
  else if tool_name == "delete_task" then
    if bindOkDelete tool_args then
      toResult (delete_task (dictGetD tool_args "task_id" .null) user_id db)
    else ({ outputs := none, error := some "TypeError: bad arguments for delete_task" }, db)
  else ({ outputs := none, error := some ("Unknown tool: " ++ tool_name) }, db)

/-- One provider-requested tool call (name and parsed JSON arguments). -/
structure ToolCall where
  id : String
  name : String
  arguments : Dict

/-- The tool-execution loop of `AgentService.chat` (lines 182-200): execute
each call in order, record `{tool, inputs: args plus user_id, outputs, error}`,
and continue past failures. -/
def executeToolCalls (user_id : Nat) : List ToolCall → Db → List Invocation × Db
  | [], db => ([], db)
  | c :: cs, db =>
    let r := execute_tool c.name c.arguments user_id db
    let inv : Invocation :=
      { tool := c.name,
        inputs := dictSet c.arguments "user_id" (.num (user_id : Int)),
        outputs := r.1.outputs, error := r.1.error }
    let rest := executeToolCalls user_id cs r.2
    (inv :: rest.1, rest.2)

/-- All ways to consume `\s+` (one or more whitespace characters), returning
the remaining suffixes in greedy backtracking order (longest consumption
first). -/
def spacePlusRests : List Char → List (List Char)
  | c :: rest => if isPySpace c then spacePlusRests rest ++ [rest] else []
  | [] => []

/-- Backtracking candidates of the optional `(?:a\s+)?` of the fallback create
pattern: with the `a` (greedy, tried first) or without. -/
def optARests (l : List Char) : List (List Char) :=
  (match litPre ['a'] l with
   | some r => spacePlusRests r
   | none => []) ++ [l]

/-- Candidates of `(?:to|called|for)\s+` (alternatives in source order). -/
def altWordRests (l : List Char) : List (List Char) :=
  (["to", "called", "for"].map String.toList).flatMap (fun w =>
    match litPre w l with
    | some r => spacePlusRests r
    | none => [])

/-- Candidates of the optional `(?:task\s+(?:to|called|for)\s+|to\s+)?`:
first alternative, second alternative, then absent. -/
def optTaskRests (l : List Char) : List (List Char) :=
  (match litPre "task".toList l with
   | some r => (spacePlusRests r).flatMap altWordRests
   | none => []) ++
  (match litPre "to".toList l with
   | some r => spacePlusRests r
   | none => []) ++ [l]

/-- Continuation of the lazy group `(.+?)(?:\.|$)` after at least one group
character: at each position first try `\.`, then `$` (end of input or before a
final newline), else extend the group with a non-newline character. -/
def lazyGroupAux (acc : List Char) : List Char → Option (List Char)
  | [] => some acc.reverse
  | c :: rest =>
    if c = '.' then some acc.reverse
    else if c = '\n' ∧ rest = [] then some acc.reverse
    else if c = '\n' then none
    else lazyGroupAux (c :: acc) rest

/-- The lazy capture `(.+?)(?:\.|$)`: at least one non-newline character,
stopping at the first position where a literal dot or the end anchor matches. -/
def lazyGroup : List Char → Option (List Char)
  | [] => none
  | c :: rest => if c = '\n' then none else lazyGroupAux [c] rest

/-- Match the whole fallback create pattern
`(?:create|add|make|new)\s+(?:a\s+)?(?:task\s+(?:to|called|for)\s+|to\s+)?(.+?)(?:\.|$)`
anchored at the current position, returning the captured group of the first
successful backtracking branch. -/
def matchCreateAt (l : List Char) : Option (List Char) :=
  ["create", "add", "make", "new"].findSome? fun kw =>
    match litPre kw.toList l with
    | none => none
    | some r0 =>
      (spacePlusRests r0).findSome? fun r1 =>
        (optARests r1).findSome? fun r2 =>
          (optTaskRests r2).findSome? fun r3 =>
            lazyGroup r3

/-- `re.search` of the create pattern: leftmost matching position wins. -/
def searchCreate : List Char → Option (List Char)
  | [] => none
  | l@(_ :: rest) =>
    match matchCreateAt l with
    | some g => some g
    | none => searchCreate rest

/-- The trailing filler words removed by
`re.sub(r'\s*(please|now|today|tomorrow)\s*$', '', title)`. -/
def fillerWords : List String := ["please", "now", "today", "tomorrow"]

/-- Whether a suffix is entirely `\s*(please|now|today|tomorrow)\s*$`. -/
def isFillerTail (l : List Char) : Bool :=
  let l1 := l.dropWhile isPySpace
  fillerWords.any fun w =>
    match litPre w.toList l1 with
    | some r => r.all isPySpace
    | none => false

/-- Apply the filler `re.sub`: cut at the leftmost position from which the
whole remaining suffix matches the (end-anchored) filler pattern. -/
def subFiller : List Char → List Char
  | [] => []
  | c :: rest =>
    if isFillerTail (c :: rest) then [] else c :: subFiller rest

/-- Title extraction of the fallback create branch (`agent.py` lines 257-274),
operating on the lower-cased message: regex search, strip, filler removal,
strip, and the `"sample task"` default when nothing (or only blanks) was
captured. -/
def extractTitle (mc : String) : String :=
  match searchCreate mc.data with
  | none => "sample task"
  | some g =>
    let t1 := pyStrip (String.mk g)
    let t2 := pyStrip (String.mk (subFiller t1.data))
    if t2 = "" then "sample task" else t2

/-- One entry of the OpenAI-format history handed to `AgentService.chat`. -/
structure ChatMsg where
  role : String
  content : String
deriving Repr, DecidableEq

/-- `messages[-1]['content'].lower() if messages else ""`. -/
def lastContentLower (messages : List ChatMsg) : String :=
  match messages.getLast? with
  | some m => pyLower m.content
  | none => ""

/-- Greeting keyword test of the fallback
(`'hello' in ... or 'hi' in ... or 'hey' in ...`). -/
def isGreetingMsg (mc : String) : Bool :=
  pyIn "hello" mc || pyIn "hi" mc || pyIn "hey" mc

/-- Create-intent keyword test of the fallback. -/
def hasCreateWord (mc : String) : Bool :=
  ["create", "add", "make", "new"].any (fun w => pyIn w mc)

/-- List-intent keyword test of the fallback. -/
def hasListWord (mc : String) : Bool :=
  ["show", "list", "view", "see", "my tasks"].any (fun w => pyIn w mc)

/-- Update-intent keyword test of the fallback. -/
def hasUpdateWord (mc : String) : Bool :=
  ["update", "complete", "done", "finish"].any (fun w => pyIn w mc)

/-- Delete-intent keyword test of the fallback. -/
def hasDeleteWord (mc : String) : Bool :=
  ["delete", "remove"].any (fun w => pyIn w mc)

/-- The fixed greeting reply of the fallback. -/
def greetReply : String :=
  "Hello! I\x27m your AI task assistant. You can ask me to create, list, update, or delete tasks."

/-- The fixed update-intent reply of the fallback. -/
def updateIntentReply : String :=
  "I can help you update tasks. Please specify which task you\x27d like to update and what changes to make."

/-- The fixed delete-intent reply of the fallback. -/
def deleteIntentReply : String :=
  "I can help you delete tasks. Please specify which task you\x27d like to delete."

/-- The reply lines enumerating tasks in the fallback list branch, built from
the `list_tasks` result dict exactly as the source iterates
`tasks_result['tasks']`. -/
def listReplyLines : Nat → List JVal → String
  | _, [] => ""
  | i, t :: rest =>
    let title := match t with | .obj fs => (match dictGet fs "title" with | some (.str s) => s | _ => "") | _ => ""
    let comp := match t with | .obj fs => (match dictGet fs "completed" with | some (.bool b) => b | _ => false) | _ => false
    let status := if comp then "completed" else "not completed"
    "\n" ++ toString i ++ ". " ++ title ++ " (" ++ status ++ ")" ++
      listReplyLines (i + 1) rest

/-- The create branch of the fallback (`agent.py` lines 276-301), with the
already-extracted title. -/
def fallbackCreate (title : String) (user_id : Nat) (db : Db) :
    Except String (String × List Invocation) × Db :=
  match create_task (.str title) user_id db .null with
  | (.ok d, db1) =>
    (.ok ("I\x27ve created a task \x27" ++ title ++ "\x27 for you.",
          [{ tool := "create_task",
             inputs := [("title", .str title), ("user_id", .num (user_id : Int))],
             outputs := some d, error := none }]), db1)
  | (.error e, db1) =>
    (.ok ("I had trouble creating the task \x27" ++ title ++ "\x27: " ++ e,
          [{ tool := "create_task",
             inputs := [("title", .str title), ("user_id", .num (user_id : Int))],
             outputs := none, error := some e }]), db1)

/-- The list branch of the fallback (`agent.py` lines 302-335). -/
def fallbackList (user_id : Nat) (db : Db) :
    Except String (String × List Invocation) × Db :=
  match list_tasks user_id db .null with
  | (.ok d, db1) =>
    let items := match dictGet d "tasks" with | some (.arr xs) => xs | _ => []
    let reply :=
      if items.length = 0 then
        "You don\x27t have any tasks yet. You can create one by asking me to create a task."
      else
        "You have " ++ toString items.length ++ " tasks:" ++ listReplyLines 1 items
    (.ok (reply,
          [{ tool := "list_tasks", inputs := [("user_id", .num (user_id : Int))],
             outputs := some d, error := none }]), db1)
  | (.error e, db1) =>
    (.ok ("I had trouble listing your tasks: " ++ e,
          [{ tool := "list_tasks", inputs := [("user_id", .num (user_id : Int))],
             outputs := none, error := some e }]), db1)

/-- The rule-based fallback of `AgentService.chat` (the `except` branch, lines
248-349): keyword classification on the lower-cased last user message
(`lastContentLower messages` plays the role of the source's
`message_content` variable), direct tool invocation for create/list intents.
The `.error` outcome models the `IndexError` of `messages[-1]` in the final
branch when the history is empty (an exception escaping the handler). -/
def fallbackChat (messages : List ChatMsg) (user_id : Nat) (db : Db) :
    Except String (String × List Invocation) × Db :=
  if isGreetingMsg (lastContentLower messages) then
    (.ok (greetReply, []), db)
  else if hasCreateWord (lastContentLower messages) then
    fallbackCreate (extractTitle (lastContentLower messages)) user_id db
  else if hasListWord (lastContentLower messages) then
    fallbackList user_id db
  else if hasUpdateWord (lastContentLower messages) then
    (.ok (updateIntentReply, []), db)
  else if hasDeleteWord (lastContentLower messages) then
    (.ok (deleteIntentReply, []), db)
  else
    match messages.getLast? with
    | none => (.error "IndexError: list index out of range", db)
    | some m =>
      (.ok ("I received your message: \x27" ++ m.content ++
            "\x27 and I\x27m ready to help you manage your tasks.", []), db)

/-- Outcome of the first provider call (`chat.completions.create` with tools):
either a message (content plus a possibly empty tool-call list) or an
exception. -/
inductive PlanOutcome where
  | success (content : String) (calls : List ToolCall)
  | failure (msg : String)

/-- The LLM provider as seen by one `AgentService.chat` call: the outcome of
the planning call and of the grounding call. -/
structure Provider where
  plan : PlanOutcome
  ground : Except String String

/-- Result of `AgentService.chat`: the returned pair (or an escaped
exception), the database state, and how many provider calls were attempted. -/
structure ChatOut where
  result : Except String (String × List Invocation)
  providerCalls : Nat
  db : Db

/-- `AgentService.chat(messages, user_id, db)` (lines 146-349): try the LLM
path (plan, execute tool calls in order, ground); any provider failure — at
the planning call or at the grounding call, after the tools already ran —
drops into the rule-based fallback. -/
def agentChat (p : Provider) (messages : List ChatMsg) (user_id : Nat)
    (db : Db) : ChatOut :=
  match p.plan with
  | .failure _ =>
    let r := fallbackChat messages user_id db
    { result := r.1, providerCalls := 1, db := r.2 }
  | .success content calls =>
    if calls.isEmpty then
      { result := .ok (content, []), providerCalls := 1, db := db }
    else
      let ex := executeToolCalls user_id calls db
      match p.ground with
      | .ok text =>
        { result := .ok (text, ex.1), providerCalls := 2, db := ex.2 }
      | .error _ =>
        let r := fallbackChat messages user_id ex.2
        { result := r.1, providerCalls := 2, db := r.2 }

/-- `ConversationService.create_conversation(user_id, db)`. -/
def create_conversation (user_id : Nat) (db : Db) : Conv × Db :=
  let c : Conv :=
    { id := db.nextConvId, user_id := user_id,
      created_at := db.now, updated_at := db.now }
  (c, { db with convs := db.convs ++ [c], nextConvId := db.nextConvId + 1 })

/-- `select(func.max(Message.sequence_number)).where(conversation_id == cid)`:
`none` models the SQL NULL of a max over no rows. -/
def maxSeqNum (db : Db) (cid : Nat) : Option Int :=
  ((db.msgs.filter (fun m => m.conversation_id == cid)).map
    (fun m => m.sequence_number)).max?

/-- `ConversationService.add_message(conversation_id, role, content, db,
tool_invocations=None)` (lines 76-104): `max_seq = result.scalar() or -1`,
`next_seq = max_seq + 1`, append the message, touch the conversation
timestamp. The `tool_invocations` column stays NULL for a missing or empty
list (`json.dumps(...) if tool_invocations else None`). -/
def add_message (conversation_id : Nat) (role content : String) (db : Db)
    (tool_invocations : Option (List Invocation)) : MessageRec × Db :=
  let max_seq := pyOrInt (maxSeqNum db conversation_id) (-1)
  let next_seq := max_seq + 1
  let msg : MessageRec :=
    { id := db.nextMsgId, conversation_id := conversation_id, role := role,
      content := content, sequence_number := next_seq, created_at := db.now,
      tool_invocations :=
        match tool_invocations with
        | some l => if l.isEmpty then none else some l
        | none => none }
  (msg,
   { db with
     msgs := db.msgs ++ [msg],
     nextMsgId := db.nextMsgId + 1,
     convs := (db.convs.map (fun c =>
       if c.id == conversation_id then { c with updated_at := db.now } else c)) })

/-- `ConversationService.log_tool_invocation(...)` (lines 112-155): the
`outputs` column is `json.dumps(outputs) if outputs else None`, so a missing
or empty output dict is stored as NULL. -/
def log_tool_invocation (user_id : Nat) (tool_name : String) (inputs : Dict)
    (outputs : Option Dict) (success : Bool) (error_message : Option String)
    (db : Db) (message_id : Option Nat) : LogRec × Db :=
  let rec_ : LogRec :=
    { id := db.nextLogId, user_id := user_id, message_id := message_id,
      tool_name := tool_name, inputs := inputs,
      outputs :=
        match outputs with
        | some d => if d.isEmpty then none else some d
        | none => none,
      success := success, error_message := error_message,
      created_at := db.now }
  (rec_, { db with logs := db.logs ++ [rec_], nextLogId := db.nextLogId + 1 })

/-- Stable insertion keeping a list sorted by descending sequence number;
ties keep insertion order (the row order SQLite returns for equal keys). -/
def insertDesc (m : MessageRec) : List MessageRec → List MessageRec
  | [] => [m]
  | x :: xs =>
    if x.sequence_number < m.sequence_number then m :: x :: xs
    else x :: insertDesc m xs

/-- `order_by(Message.sequence_number.desc())` as a stable sort. -/
def sortBySeqDesc (l : List MessageRec) : List MessageRec :=
  l.foldl (fun acc m => insertDesc m acc) []

/-- `ConversationService.load_conversation_messages(conversation_id, user_id,
db, limit=50)` (lines 162-206): ownership check, then the most recent `limit`
messages by sequence number descending, reversed to chronological order and
converted to OpenAI format. -/
def load_conversation_messages (conversation_id user_id : Nat) (db : Db)
    (limit : Nat) : Except String (List ChatMsg) :=
  match db.convs.find? (fun c => c.id == conversation_id) with
  | none => .error "Conversation not found or does not belong to user"
  | some conv =>
    if conv.user_id != user_id then
      .error "Conversation not found or does not belong to user"
    else
      let ordered :=
        (sortBySeqDesc (db.msgs.filter
          (fun m => m.conversation_id == conversation_id))).take limit
      .ok (ordered.reverse.map (fun m => { role := m.role, content := m.content }))

/-- The `detail` payload of a raised `HTTPException` in the chat route. -/
structure HttpDetail where
  status : Nat
  code : String
  message : String
deriving Repr, DecidableEq

/-- The `ChatResponse` returned by the chat route. -/
structure RouteResponse where
  conversation_id : Nat
  message_id : Nat
  response : String
  tool_invocations : List Invocation

/-- The audit loop of the chat route (lines 136-146): one
`log_tool_invocation` per returned invocation, with
`success=tool_inv.get("error") is None`. -/
def logAll (user_id message_id : Nat) : List Invocation → Db → Db
  | [], db => db
  | inv :: rest, db =>
    let r := log_tool_invocation user_id inv.tool inv.inputs inv.outputs
      inv.error.isNone inv.error db (some message_id)
    logAll user_id message_id rest r.2

/-- The tail of the `POST /chat` handler once the agent returned `out`:
append the assistant turn, persist the audit log, build the response (or turn
an escaped agent exception into a 500). -/
def chatFinish (cid user_id : Nat) (out : ChatOut) :
    Except HttpDetail RouteResponse × Db :=
  match out.result with
  | .error _ =>
    (.error { status := 500, code := "AGENT_ERROR",
              message := "Failed to get response from AI agent" }, out.db)
  | .ok (text, invs) =>
    let am := add_message cid "assistant" text out.db (some invs)
    let db4 := logAll user_id am.1.id invs am.2
    (.ok { conversation_id := cid, message_id := am.1.id, response := text,
           tool_invocations := invs }, db4)

/-- The part of the `POST /chat` handler after the conversation was resolved
to `cid` with history `history` over state `db1`: append the user turn, run
the agent on the extended history, then finish the turn. -/
def chatRouteMain (p : Provider) (cid : Nat) (history : List ChatMsg)
    (message : String) (user_id : Nat) (db1 : Db) :
    Except HttpDetail RouteResponse × Db :=
  chatFinish cid user_id
    (agentChat p (history ++ [{ role := "user", content := message }])
      user_id (add_message cid "user" message db1 none).2)

/-- The `POST /chat` route handler (`chat.py` lines 19-164): message
validation, conversation resolution (create when absent, 404 when missing or
foreign), then the main path. -/
def chatRoute (p : Provider) (conversation_id : Option Nat) (message : String)
    (user_id : Nat) (db : Db) : Except HttpDetail RouteResponse × Db :=
  if pyStrip message = "" then
    (.error { status := 400, code := "VALIDATION_ERROR",
              message := "Message cannot be empty" }, db)
  else if 10000 < message.length then
    (.error { status := 400, code := "VALIDATION_ERROR",
              message := "Message must be less than 10000 characters" }, db)
  else
    let resolved : Except HttpDetail (Nat × List ChatMsg × Db) :=
      match conversation_id with
      | none =>
        let r := create_conversation user_id db
        .ok (r.1.id, [], r.2)
      | some cid =>
        match load_conversation_messages cid user_id db 50 with
        | .error _ =>
          .error { status := 404, code := "NOT_FOUND",
                   message := "Conversation not found" }
        | .ok h => .ok (cid, h, db)
    match resolved with
    | .error e => (.error e, db)
    | .ok (cid, history, db1) =>
      chatRouteMain p cid history message user_id db1

/-- A provider whose planning call fails (the provider-unavailable situation
of the scenarios). -/
def providerDown : Provider :=
  { plan := .failure "connection error", ground := .error "connection error" }

/-- Well-formedness of one in-memory invocation record as built by
`AgentService.chat`: on success the outputs are a non-empty dict, on failure
they are absent. -/
def invOk (i : Invocation) : Bool :=
  match i.error with
  | none => (match i.outputs with | some d => !d.isEmpty | none => false)
  | some _ => i.outputs.isNone

/-- The audit invariant on a persisted log row:
`success == (error_message absent and outputs present)`. -/
def auditOk (r : LogRec) : Bool :=
  r.success == (r.error_message.isNone && r.outputs.isSome)

/-- Shape of a `_execute_tool` result: outputs present exactly on success. -/
def resOk (r : ToolResult) : Bool :=
  match r.error with
  | none => (match r.outputs with | some d => !d.isEmpty | none => false)
  | some _ => r.outputs.isNone

/-- A successful tool result dict is never empty. -/
def toolOkNE : Except String Dict → Bool
  | .ok d => !d.isEmpty
  | .error _ => true

/-- A database holding one conversation owned by user 2 (used to exercise the
cross-tenant checks with caller 1). -/
def dbConvOwner2 : Db :=
  { emptyDb with
    convs := [{ id := 1, user_id := 2, created_at := 0, updated_at := 0 }] }

/-- C1: the spec claims `add_message` assigns `1 + max(existing sequence
numbers)` (0 for the first message), so the "hi" scenario should append
messages with sequence numbers 0 and 1. Evaluating the code at that input:
`max_seq = result.scalar() or -1` treats the existing maximum 0 as falsy, so
the assistant message is assigned sequence number 0 as well — the claimed
numbering is violated (while the rest of the scenario — greeting reply, no
tool invocations, one new conversation — does hold). -/
theorem C1_hi_scenario_sequences :
    ((chatRoute providerDown none "hi" 1 emptyDb).2.msgs.map
        (fun m => (m.conversation_id, m.role, m.sequence_number)) =
      [(1, "user", 0), (1, "assistant", 0)])
    ∧ ((chatRoute providerDown none "hi" 1 emptyDb).2.convs.map
        (fun c => (c.id, c.user_id)) = [(1, 1)])
    ∧ ((chatRoute providerDown none "hi" 1 emptyDb).1 =
        .ok { conversation_id := 1, message_id := 2, response := greetReply,
              tool_invocations := [] }) :=
  ⟨rfl, rfl, rfl⟩

/-- C5: with the provider unavailable and the message "Create a task to buy
milk", the fallback extracts the title "buy milk", invokes `create_task` with
that title and no description, replies confirming "buy milk", and records
exactly one `create_task` invocation with no error. -/
theorem C5_fallback_create_buy_milk :
    ((agentChat providerDown
        [{ role := "user", content := "Create a task to buy milk" }] 1
        emptyDb).result =
      .ok ("I\x27ve created a task \x27buy milk\x27 for you.",
           [{ tool := "create_task",
              inputs := [("title", .str "buy milk"), ("user_id", .num 1)],
              outputs := some [("task_id", .num 1), ("title", .str "buy milk"),
                ("description", .null), ("completed", .bool false),
                ("created_at", .str "0")],
              error := none }]))
    ∧ pyIn "buy milk" "I\x27ve created a task \x27buy milk\x27 for you." = true
    ∧ ((agentChat providerDown
        [{ role := "user", content := "Create a task to buy milk" }] 1
        emptyDb).db.tasks.map (fun t => (t.title, t.description, t.user_id)) =
      [("buy milk", none, 1)]) :=
  ⟨rfl, by decide, rfl⟩

/-- C8 counterexample: the claim says a title that is blank after trimming is
rejected, but `create_task` only checks `not title` — the whitespace-only
title `" "` is accepted and a task is created with it. -/
theorem C8_whitespace_title_counterexample :
    ((create_task (.str " ") 1 emptyDb .null).1 =
      .ok [("task_id", .num 1), ("title", .str " "), ("description", .null),
           ("completed", .bool false), ("created_at", .str "0")])
    ∧ ((create_task (.str " ") 1 emptyDb .null).2.tasks.map (fun t => t.title) =
      [" "]) :=
  ⟨rfl, rfl⟩

/-- C9: when the grounding call fails after a provider-requested
`create_task("provider milk")` was already executed, the whole turn falls
into the rule-based fallback: the returned invocation list contains only the
fallback's own `create_task("buy milk")` record (the executed one is
discarded), and the store ends up with both tasks — the tool ran twice for
one user message. -/
theorem C9_grounding_failure_discards_and_reexecutes :
    ((agentChat
        { plan := .success ""
            [{ id := "call_1", name := "create_task",
               arguments := [("title", .str "provider milk")] }],
          ground := .error "boom" }
        [{ role := "user", content := "Create a task to buy milk" }] 1
        emptyDb).result =
      .ok ("I\x27ve created a task \x27buy milk\x27 for you.",
           [{ tool := "create_task",
              inputs := [("title", .str "buy milk"), ("user_id", .num 1)],
              outputs := some [("task_id", .num 2), ("title", .str "buy milk"),
                ("description", .null), ("completed", .bool false),
                ("created_at", .str "0")],
              error := none }]))
    ∧ ((agentChat
        { plan := .success ""
            [{ id := "call_1", name := "create_task",
               arguments := [("title", .str "provider milk")] }],
          ground := .error "boom" }
        [{ role := "user", content := "Create a task to buy milk" }] 1
        emptyDb).db.tasks.map (fun t => (t.id, t.title, t.user_id)) =
      [(1, "provider milk", 1), (2, "buy milk", 1)])
    ∧ ((agentChat
        { plan := .success ""
            [{ id := "call_1", name := "create_task",
               arguments := [("title", .str "provider milk")] }],
          ground := .error "boom" }
        [{ role := "user", content := "Create a task to buy milk" }] 1
        emptyDb).providerCalls = 2) :=
  ⟨rfl, rfl, rfl⟩

/-- C10: fallback intent classification is substring containment on the
lower-cased message: any message containing "hi", "hey" or "hello" as a
substring is answered with the fixed greeting and no tool invocation,
regardless of any other intent keywords present. -/
theorem C10_greeting_substring_precedence
    (messages : List ChatMsg) (user_id : Nat) (db : Db)
    (h : (pyIn "hi" (lastContentLower messages) ||
          pyIn "hey" (lastContentLower messages) ||
          pyIn "hello" (lastContentLower messages)) = true) :
    fallbackChat messages user_id db = (.ok (greetReply, []), db) := by
  have hg : isGreetingMsg (lastContentLower messages) = true := by
    simp only [isGreetingMsg, Bool.or_eq_true] at h ⊢
    tauto
  simp only [fallbackChat, hg, if_true]

/-- C10 witness: "delete this task" contains "hi" (inside "this") and is
classified as a greeting, despite containing the delete keyword. -/
theorem C10_greeting_substring_precedence_witness :
    fallbackChat [{ role := "user", content := "delete this task" }] 1 emptyDb =
      (.ok (greetReply, []), emptyDb) :=
  C10_greeting_substring_precedence
    [{ role := "user", content := "delete this task" }] 1 emptyDb (by decide)

/-- C7: when the planning call fails, the whole `chat` performs exactly one
provider call (the fallback performs none), and a message classified as
update or delete intent produces no tool invocation, leaves the store
untouched, and gets the fixed "please specify" reply. -/
theorem C7_fallback_single_provider_call
    (messages : List ChatMsg) (user_id : Nat) (db : Db) (e : String)
    (g : Except String String) :
    (agentChat { plan := .failure e, ground := g } messages user_id
        db).providerCalls = 1
    ∧ ((!isGreetingMsg (lastContentLower messages) &&
        !hasCreateWord (lastContentLower messages) &&
        !hasListWord (lastContentLower messages) &&
        hasUpdateWord (lastContentLower messages)) = true →
        (agentChat { plan := .failure e, ground := g } messages user_id
            db).result = .ok (updateIntentReply, [])
        ∧ (agentChat { plan := .failure e, ground := g } messages user_id
            db).db = db)
    ∧ ((!isGreetingMsg (lastContentLower messages) &&
        !hasCreateWord (lastContentLower messages) &&
        !hasListWord (lastContentLower messages) &&
        !hasUpdateWord (lastContentLower messages) &&
        hasDeleteWord (lastContentLower messages)) = true →
        (agentChat { plan := .failure e, ground := g } messages user_id
            db).result = .ok (deleteIntentReply, [])
        ∧ (agentChat { plan := .failure e, ground := g } messages user_id
            db).db = db) := by
  refine ⟨rfl, ?_, ?_⟩
  · intro h
    simp only [Bool.and_eq_true, Bool.not_eq_true'] at h
    obtain ⟨⟨⟨h1, h2⟩, h3⟩, h4⟩ := h
    simp only [agentChat, fallbackChat, h1, h2, h3, h4]
    exact ⟨rfl, rfl⟩
  · intro h
    simp only [Bool.and_eq_true, Bool.not_eq_true'] at h
    obtain ⟨⟨⟨⟨h1, h2⟩, h3⟩, h4⟩, h5⟩ := h
    simp only [agentChat, fallbackChat, h1, h2, h3, h4, h5]
    exact ⟨rfl, rfl⟩

/-- C7 witness: the messages "update" and "remove" are classified as update
and delete intent respectively; the fallback answers with the fixed replies,
no tool invocation, no store change, and one provider call in total. -/
theorem C7_fallback_single_provider_call_witness :
    (agentChat { plan := .failure "down", ground := .error "down" }
        [{ role := "user", content := "update" }] 1 emptyDb).providerCalls = 1
    ∧ (agentChat { plan := .failure "down", ground := .error "down" }
        [{ role := "user", content := "update" }] 1 emptyDb).result =
        .ok (updateIntentReply, [])
    ∧ (agentChat { plan := .failure "down", ground := .error "down" }
        [{ role := "user", content := "remove" }] 1 emptyDb).result =
        .ok (deleteIntentReply, []) :=
  ⟨(C7_fallback_single_provider_call
      [{ role := "user", content := "update" }] 1 emptyDb "down"
      (.error "down")).1,
   ((C7_fallback_single_provider_call
      [{ role := "user", content := "update" }] 1 emptyDb "down"
      (.error "down")).2.1 (by decide)).1,
   ((C7_fallback_single_provider_call
      [{ role := "user", content := "remove" }] 1 emptyDb "down"
      (.error "down")).2.2 (by decide)).1⟩

/-- C4: for a (validly formed) chat request naming a conversation that does
not exist or is owned by another user, the route fails with 404 NOT_FOUND and
returns the database unchanged — no message data is returned and nothing is
appended before the failure. -/
theorem C4_foreign_conversation_404
    (p : Provider) (cid user_id : Nat) (message : String) (db : Db)
    (hmsg : pyStrip message ≠ "")
    (hlen : message.length ≤ 10000)
    (hconv : (db.convs.find? (fun c => c.id == cid)).all
        (fun c => c.user_id != user_id) = true) :
    chatRoute p (some cid) message user_id db =
      (.error { status := 404, code := "NOT_FOUND",
                message := "Conversation not found" }, db) := by
  have h2 : ¬ (10000 < message.length) := by omega
  have hl : load_conversation_messages cid user_id db 50 =
      .error "Conversation not found or does not belong to user" := by
    unfold load_conversation_messages
    cases hf : db.convs.find? (fun c => c.id == cid) with
    | none => rfl
    | some c =>
      rw [hf] at hconv
      simp only [Option.all] at hconv
      simp [hconv]
  simp only [chatRoute, if_neg hmsg, if_neg h2, hl]

/-- C4 witness: user 1 addressing conversation 1, which is owned by user 2,
receives 404 and the database is untouched. -/
theorem C4_foreign_conversation_404_witness :
    chatRoute providerDown (some 1) "x" 1 dbConvOwner2 =
      (.error { status := 404, code := "NOT_FOUND",
                message := "Conversation not found" }, dbConvOwner2) :=
  C4_foreign_conversation_404 providerDown 1 1 "x" dbConvOwner2
    (by decide) (by decide) (by decide)

theorem toResult_shape (x : Except String Dict × Db) :
    (toResult x).1.outputs.isSome = (toResult x).1.error.isNone := by
  rcases x with ⟨r, db⟩
  cases r <;> rfl

theorem execute_tool_shape (n : String) (a : Dict) (u : Nat) (db : Db) :
    (execute_tool n a u db).1.outputs.isSome =
      (execute_tool n a u db).1.error.isNone := by
  unfold execute_tool
  repeat' split
  all_goals first | rfl | exact toResult_shape _

theorem execCalls_append (u : Nat) (l1 l2 : List ToolCall) (db : Db) :
    executeToolCalls u (l1 ++ l2) db =
      ((executeToolCalls u l1 db).1 ++
        (executeToolCalls u l2 (executeToolCalls u l1 db).2).1,
       (executeToolCalls u l2 (executeToolCalls u l1 db).2).2) := by
  induction l1 generalizing db with
  | nil => simp [executeToolCalls]
  | cons c cs ih => simp [executeToolCalls, ih]

theorem execCalls_length (u : Nat) (calls : List ToolCall) (db : Db) :
    (executeToolCalls u calls db).1.length = calls.length := by
  induction calls generalizing db with
  | nil => rfl
  | cons c cs ih => simp [executeToolCalls, ih]

theorem execCalls_get_tool (u : Nat) (calls : List ToolCall) (db : Db)
    (i : Nat) :
    ((executeToolCalls u calls db).1[i]?).map (fun inv => inv.tool) =
      (calls[i]?).map (fun c => c.name) := by
  induction calls generalizing db i with
  | nil => rfl
  | cons c cs ih =>
    cases i with
    | zero => simp [executeToolCalls]
    | succ j => simp [executeToolCalls, ih]

theorem execCalls_get_inputs (u : Nat) (calls : List ToolCall) (db : Db)
    (i : Nat) :
    ((executeToolCalls u calls db).1[i]?).map (fun inv => inv.inputs) =
      (calls[i]?).map
        (fun c => dictSet c.arguments "user_id" (.num (u : Int))) := by
  induction calls generalizing db i with
  | nil => rfl
  | cons c cs ih =>
    cases i with
    | zero => simp [executeToolCalls]
    | succ j => simp [executeToolCalls, ih]

theorem execCalls_all_shape (u : Nat) (calls : List ToolCall) (db : Db) :
    ((executeToolCalls u calls db).1.all
      (fun inv => inv.outputs.isSome == inv.error.isNone)) = true := by
  induction calls generalizing db with
  | nil => rfl
  | cons c cs ih =>
    simp only [executeToolCalls, List.all_cons, Bool.and_eq_true, beq_iff_eq]
    exact ⟨execute_tool_shape c.name c.arguments u db, ih _⟩

/-- C6: the tool-execution loop of one turn runs the provider-requested calls
sequentially in exactly the returned order (splitting the call list splits the
execution, with the state threaded left to right, so an earlier failure never
prevents a later call), produces one invocation record per call whose tool
name and inputs (the provider arguments plus the injected `user_id`) match the
corresponding call positionally, and each record carries outputs exactly when
it carries no error. -/
theorem C6_tool_calls_in_order (user_id : Nat) (db : Db)
    (calls calls₁ calls₂ : List ToolCall) (i : Nat) :
    (executeToolCalls user_id (calls₁ ++ calls₂) db =
      ((executeToolCalls user_id calls₁ db).1 ++
        (executeToolCalls user_id calls₂
          (executeToolCalls user_id calls₁ db).2).1,
       (executeToolCalls user_id calls₂
          (executeToolCalls user_id calls₁ db).2).2))
    ∧ (executeToolCalls user_id calls db).1.length = calls.length
    ∧ ((executeToolCalls user_id calls db).1[i]?).map (fun inv => inv.tool) =
        (calls[i]?).map (fun c => c.name)
    ∧ ((executeToolCalls user_id calls db).1[i]?).map (fun inv => inv.inputs) =
        (calls[i]?).map
          (fun c => dictSet c.arguments "user_id" (.num (user_id : Int)))
    ∧ ((executeToolCalls user_id calls db).1.all
        (fun inv => inv.outputs.isSome == inv.error.isNone)) = true :=
  ⟨execCalls_append user_id calls₁ calls₂ db,
   execCalls_length user_id calls db,
   execCalls_get_tool user_id calls db i,
   execCalls_get_inputs user_id calls db i,
   execCalls_all_shape user_id calls db⟩

theorem filter_filter_of_imp (p q : Task → Bool)
    (h : ∀ x, p x = true → q x = true) (l : List Task) :
    (l.filter q).filter p = l.filter p := by
  induction l with
  | nil => rfl
  | cons x xs ih =>
    cases hq : q x with
    | true =>
      cases hp : p x with
      | true => simp [List.filter_cons, hq, hp, ih]
      | false => simp [List.filter_cons, hq, hp, ih]
    | false =>
      have hp : p x = false := by
        cases hpx : p x with
        | true => rw [h x hpx] at hq; cases hq
        | false => rfl
      simp [List.filter_cons, hq, hp, ih]

theorem filter_map_of_fix (f : Task → Task) (p : Task → Bool)
    (h1 : ∀ x, p (f x) = p x) (h2 : ∀ x, p x = true → f x = x)
    (l : List Task) :
    (l.map f).filter p = l.filter p := by
  induction l with
  | nil => rfl
  | cons x xs ih =>
    cases hp : p x with
    | true => simp [List.filter_cons, h1 x, hp, h2 x hp, ih]
    | false => simp [List.filter_cons, h1 x, hp, ih]

theorem taskKeyMatch_own (t : Task) (tid : JVal) (u : Nat) :
    taskKeyMatch t tid u = true → (t.user_id == u) = true := by
  unfold taskKeyMatch
  intro h
  simp only [Bool.and_eq_true] at h
  exact h.2

theorem createCommit_frame (ti : JVal) (u : Nat) (db : Db) (de : JVal) :
    (createCommit ti u db de).2.tasks.filter (fun t => t.user_id != u) =
      db.tasks.filter (fun t => t.user_id != u) := by
  unfold createCommit
  split <;> simp [List.filter_append, List.filter_cons]

theorem createCommit_read (ti : JVal) (u : Nat) (db : Db) (de : JVal) :
    (createCommit ti u
      { db with tasks := db.tasks.filter (fun t => t.user_id == u) } de).1 =
      (createCommit ti u db de).1 := by
  unfold createCommit
  split <;> rfl

theorem createCommit_logs (ti : JVal) (u : Nat) (db : Db) (de : JVal) :
    (createCommit ti u db de).2.logs = db.logs := by
  unfold createCommit
  split <;> rfl

theorem create_task_frame (ti : JVal) (u : Nat) (db : Db) (de : JVal) :
    (create_task ti u db de).2.tasks.filter (fun t => t.user_id != u) =
      db.tasks.filter (fun t => t.user_id != u) := by
  unfold create_task
  repeat' split
  all_goals first | rfl | exact createCommit_frame ti u db de

theorem create_task_read (ti : JVal) (u : Nat) (db : Db) (de : JVal) :
    (create_task ti u
      { db with tasks := db.tasks.filter (fun t => t.user_id == u) } de).1 =
      (create_task ti u db de).1 := by
  unfold create_task
  repeat' split
  all_goals first | rfl | exact createCommit_read ti u db de

theorem create_task_logs (ti : JVal) (u : Nat) (db : Db) (de : JVal) :
    (create_task ti u db de).2.logs = db.logs := by
  unfold create_task
  repeat' split
  all_goals first | rfl | exact createCommit_logs ti u db de

theorem list_tasks_snd (u : Nat) (db : Db) (c : JVal) :
    (list_tasks u db c).2 = db := by
  unfold list_tasks
  split <;> rfl

theorem list_tasks_read (u : Nat) (db : Db) (c : JVal) :
    (list_tasks u
      { db with tasks := db.tasks.filter (fun t => t.user_id == u) } c).1 =
      (list_tasks u db c).1 := by
  have hff : (db.tasks.filter (fun t => t.user_id == u)).filter
      (fun t => t.user_id == u) = db.tasks.filter (fun t => t.user_id == u) :=
    filter_filter_of_imp _ _ (fun x h => h) _
  unfold list_tasks
  simp only [hff]

theorem updateApply_frame (t : Task) (tid : JVal) (u : Nat) (db : Db)
    (ti de co : JVal) (htu : t.user_id = u) :
    (updateApply t tid u db ti de co).2.tasks.filter
        (fun x => x.user_id != u) =
      db.tasks.filter (fun x => x.user_id != u) := by
  unfold updateApply
  cases h1 : updTitle ti with
  | error e => rfl
  | ok tb =>
    cases h2 : updDescr de with
    | error e => rfl
    | ok dd =>
      simp only []
      by_cases hb : (tb.2 || dd.2 || (updCompl co).2) = true
      · simp [hb]
      · rw [if_neg hb]
        simp only []
        apply filter_map_of_fix
        · intro x
          by_cases hx : taskKeyMatch x tid u = true
          · have hxu : x.user_id = u := by
              simpa using taskKeyMatch_own x tid u hx
            simp [hx, hxu, htu]
          · simp [hx]
        · intro x hxn
          by_cases hx : taskKeyMatch x tid u = true
          · have hxu : x.user_id = u := by
              simpa using taskKeyMatch_own x tid u hx
            rw [hxu] at hxn
            simp at hxn
          · simp [hx]

theorem update_task_frame (tid : JVal) (u : Nat) (db : Db) (ti de co : JVal) :
    (update_task tid u db ti de co).2.tasks.filter (fun t => t.user_id != u) =
      db.tasks.filter (fun t => t.user_id != u) := by
  unfold update_task
  cases hm : db.tasks.filter (fun t => taskKeyMatch t tid u) with
  | nil => rfl
  | cons t rest =>
    cases rest with
    | cons t2 r2 => rfl
    | nil =>
      have ht : taskKeyMatch t tid u = true := by
        have hmem : t ∈ db.tasks.filter (fun t => taskKeyMatch t tid u) := by
          rw [hm]; exact List.mem_cons_self t []
        exact (List.mem_filter.mp hmem).2
      have htu : t.user_id = u := by simpa using taskKeyMatch_own t tid u ht
      exact updateApply_frame t tid u db ti de co htu

theorem delete_task_frame (tid : JVal) (u : Nat) (db : Db) :
    (delete_task tid u db).2.tasks.filter (fun t => t.user_id != u) =
      db.tasks.filter (fun t => t.user_id != u) := by
  unfold delete_task
  cases hm : db.tasks.filter (fun t => taskKeyMatch t tid u) with
  | nil => rfl
  | cons t rest =>
    cases rest with
    | cons t2 r2 => rfl
    | nil =>
      show ((db.tasks.filter (fun x => !taskKeyMatch x tid u)).filter
        (fun t => t.user_id != u)) = db.tasks.filter (fun t => t.user_id != u)
      apply filter_filter_of_imp
      intro x hxn
      cases hx : taskKeyMatch x tid u with
      | false => rfl
      | true =>
        have hxu : x.user_id = u := by simpa using taskKeyMatch_own x tid u hx
        rw [hxu] at hxn
        simp at hxn

theorem updateApply_logs (t : Task) (tid : JVal) (u : Nat) (db : Db)
    (ti de co : JVal) :
    (updateApply t tid u db ti de co).2.logs = db.logs := by
  unfold updateApply
  cases updTitle ti with
  | error e => rfl
  | ok tb =>
    cases updDescr de with
    | error e => rfl
    | ok dd =>
      by_cases hb : (tb.2 || dd.2 || (updCompl co).2) = true <;> simp [hb]

theorem update_task_logs (tid : JVal) (u : Nat) (db : Db) (ti de co : JVal) :
    (update_task tid u db ti de co).2.logs = db.logs := by
  unfold update_task
  cases hm : db.tasks.filter (fun t => taskKeyMatch t tid u) with
  | nil => rfl
  | cons t rest =>
    cases rest with
    | cons t2 r2 => rfl
    | nil => exact updateApply_logs t tid u db ti de co

theorem delete_task_logs (tid : JVal) (u : Nat) (db : Db) :
    (delete_task tid u db).2.logs = db.logs := by
  unfold delete_task
  cases hm : db.tasks.filter (fun t => taskKeyMatch t tid u) with
  | nil => rfl
  | cons t rest =>
    cases rest with
    | cons t2 r2 => rfl
    | nil => rfl

theorem create_task_read2 (ti : JVal) (u : Nat) (de : JVal) (db1 db2 : Db)
    (hid : db1.nextTaskId = db2.nextTaskId) (hnow : db1.now = db2.now) :
    (create_task ti u db1 de).1 = (create_task ti u db2 de).1 := by
  unfold create_task createCommit
  (repeat' split) <;> simp [hid, hnow]

theorem list_tasks_read2 (u : Nat) (c : JVal) (db1 db2 : Db)
    (hview : db1.tasks.filter (fun t => t.user_id == u) =
      db2.tasks.filter (fun t => t.user_id == u)) :
    (list_tasks u db1 c).1 = (list_tasks u db2 c).1 := by
  unfold list_tasks
  rw [hview]

theorem updateApply_read2 (t : Task) (tid : JVal) (u : Nat) (ti de co : JVal)
    (db1 db2 : Db) (hnow : db1.now = db2.now) :
    (updateApply t tid u db1 ti de co).1 =
      (updateApply t tid u db2 ti de co).1 := by
  unfold updateApply
  cases updTitle ti with
  | error e => rfl
  | ok tb =>
    cases updDescr de with
    | error e => rfl
    | ok dd =>
      by_cases hb : (tb.2 || dd.2 || (updCompl co).2) = true <;>
        simp [hb, hnow]

theorem update_task_read2 (tid : JVal) (u : Nat) (ti de co : JVal)
    (db1 db2 : Db)
    (hm : db1.tasks.filter (fun t => taskKeyMatch t tid u) =
      db2.tasks.filter (fun t => taskKeyMatch t tid u))
    (hnow : db1.now = db2.now) :
    (update_task tid u db1 ti de co).1 = (update_task tid u db2 ti de co).1 := by
  unfold update_task
  rw [hm]
  cases db2.tasks.filter (fun t => taskKeyMatch t tid u) with
  | nil => rfl
  | cons t rest =>
    cases rest with
    | cons t2 r2 => rfl
    | nil => exact updateApply_read2 t tid u ti de co db1 db2 hnow

theorem delete_task_read2 (tid : JVal) (u : Nat) (db1 db2 : Db)
    (hm : db1.tasks.filter (fun t => taskKeyMatch t tid u) =
      db2.tasks.filter (fun t => taskKeyMatch t tid u)) :
    (delete_task tid u db1).1 = (delete_task tid u db2).1 := by
  unfold delete_task
  rw [hm]
  cases db2.tasks.filter (fun t => taskKeyMatch t tid u) with
  | nil => rfl
  | cons t rest =>
    cases rest with
    | cons t2 r2 => rfl
    | nil => rfl

theorem toResult_snd (x : Except String Dict × Db) : (toResult x).2 = x.2 := by
  rcases x with ⟨r, d⟩
  cases r <;> rfl

theorem toResult_fst_congr (x y : Except String Dict × Db) (h : x.1 = y.1) :
    (toResult x).1 = (toResult y).1 := by
  rcases x with ⟨r1, d1⟩
  rcases y with ⟨r2, d2⟩
  have h' : r1 = r2 := h
  subst h'
  cases r1 <;> rfl

theorem execute_tool_frame (n : String) (a : Dict) (u : Nat) (db : Db) :
    (execute_tool n a u db).2.tasks.filter (fun t => t.user_id != u) =
      db.tasks.filter (fun t => t.user_id != u) := by
  unfold execute_tool
  repeat' split
  all_goals first
    | rfl
    | (rw [toResult_snd]
       first
         | exact create_task_frame _ u db _
         | rw [list_tasks_snd]
         | exact update_task_frame _ u db _ _ _
         | exact delete_task_frame _ u db)

theorem execute_tool_logs (n : String) (a : Dict) (u : Nat) (db : Db) :
    (execute_tool n a u db).2.logs = db.logs := by
  unfold execute_tool
  repeat' split
  all_goals first
    | rfl
    | (rw [toResult_snd]
       first
         | exact create_task_logs _ u db _
         | rw [list_tasks_snd]
         | exact update_task_logs _ u db _ _ _
         | exact delete_task_logs _ u db)

theorem execute_tool_read (n : String) (a : Dict) (u : Nat) (db : Db) :
    (execute_tool n a u
      { db with tasks := db.tasks.filter (fun t => t.user_id == u) }).1 =
      (execute_tool n a u db).1 := by
  unfold execute_tool
  repeat' split
  all_goals first
    | rfl
    | exact toResult_fst_congr _ _ (create_task_read2 _ u _ _ db rfl rfl)
    | exact toResult_fst_congr _ _ (list_tasks_read2 u _ _ db
        (filter_filter_of_imp _ _ (fun x h => h) db.tasks))
    | exact toResult_fst_congr _ _ (update_task_read2 _ u _ _ _ _ db
        (filter_filter_of_imp _ _ (fun x h => taskKeyMatch_own x _ u h)
          db.tasks) rfl)
    | exact toResult_fst_congr _ _ (delete_task_read2 _ u _ db
        (filter_filter_of_imp _ _ (fun x h => taskKeyMatch_own x _ u h)
          db.tasks))

theorem bindChecks_user_id (a : Dict) (h : hasKey a "user_id" = true) :
    bindOkCreate a = false ∧ bindOkList a = false ∧ bindOkUpdate a = false ∧
      bindOkDelete a = false := by
  unfold hasKey at h
  obtain ⟨q, hq, hk⟩ := List.any_eq_true.mp h
  have hkey : q.1 = "user_id" := by simpa using hk
  have hfalse : ∀ f : String × JVal → Bool, f q = false → a.all f = false := by
    intro f hf
    cases hall : a.all f with
    | false => rfl
    | true =>
      have := List.all_eq_true.mp hall q hq
      rw [hf] at this
      cases this
  refine ⟨?_, ?_, ?_, ?_⟩
  · have h1 : a.all
        (fun p : String × JVal => p.1 == "title" || p.1 == "description") =
        false :=
      hfalse (fun p => p.1 == "title" || p.1 == "description")
        (by simp [hkey])
    unfold bindOkCreate
    rw [h1]
    rfl
  · have h1 : a.all (fun p : String × JVal => p.1 == "completed") = false :=
      hfalse (fun p => p.1 == "completed") (by simp [hkey])
    unfold bindOkList
    exact h1
  · have h1 : a.all
        (fun p : String × JVal =>
          p.1 == "task_id" || p.1 == "title" || p.1 == "description" ||
            p.1 == "completed") = false :=
      hfalse
        (fun p =>
          p.1 == "task_id" || p.1 == "title" || p.1 == "description" ||
            p.1 == "completed")
        (by simp [hkey])
    unfold bindOkUpdate
    rw [h1]
    rfl
  · have h1 : a.all (fun p : String × JVal => p.1 == "task_id") = false :=
      hfalse (fun p => p.1 == "task_id") (by simp [hkey])
    unfold bindOkDelete
    rw [h1]
    rfl

theorem execute_tool_user_arg (n : String) (a : Dict) (u : Nat) (db : Db)
    (h : hasKey a "user_id" = true) :
    (execute_tool n a u db).1.error.isSome = true ∧
      (execute_tool n a u db).2 = db := by
  obtain ⟨hc, hl, hu2, hd⟩ := bindChecks_user_id a h
  unfold execute_tool
  repeat' split
  all_goals simp_all

/-- C2: the `user_id` scoping every Task Store access is the injected,
authenticated one, never a provider-supplied argument: (1) a tool execution
never changes another user's tasks (the other-users partition of the store is
untouched, whatever tool name and arguments the provider sent); (2) the
result is computed from the caller's own tasks only (deleting every other
user's task beforehand gives the identical result); (3) if the provider's
arguments themselves carry a `user_id` key, the call fails at the keyword
binding and the store is untouched. -/
theorem C2_user_scoping (tool_name : String) (tool_args : Dict)
    (user_id : Nat) (db : Db) :
    ((execute_tool tool_name tool_args user_id db).2.tasks.filter
        (fun t => t.user_id != user_id) =
      db.tasks.filter (fun t => t.user_id != user_id))
    ∧ ((execute_tool tool_name tool_args user_id
        { db with tasks :=
            db.tasks.filter (fun t => t.user_id == user_id) }).1 =
      (execute_tool tool_name tool_args user_id db).1)
    ∧ (hasKey tool_args "user_id" = true →
        (execute_tool tool_name tool_args user_id db).1.error.isSome = true ∧
        (execute_tool tool_name tool_args user_id db).2 = db) :=
  ⟨execute_tool_frame tool_name tool_args user_id db,
   execute_tool_read tool_name tool_args user_id db,
   fun h => execute_tool_user_arg tool_name tool_args user_id db h⟩

/-- C2 witness: an `update_task` call whose provider arguments smuggle
`user_id = 99` is rejected at the binding for caller 7 and leaves the store
unchanged. -/
theorem C2_user_scoping_witness :
    hasKey [("task_id", JVal.num 1), ("user_id", JVal.num 99)] "user_id" = true
    ∧ ((execute_tool "update_task"
          [("task_id", JVal.num 1), ("user_id", JVal.num 99)] 7
          emptyDb).1.error.isSome = true
       ∧ (execute_tool "update_task"
          [("task_id", JVal.num 1), ("user_id", JVal.num 99)] 7
          emptyDb).2 = emptyDb) :=
  ⟨by decide,
   (C2_user_scoping "update_task"
      [("task_id", JVal.num 1), ("user_id", JVal.num 99)] 7 emptyDb).2.2
     (by decide)⟩

theorem create_task_NE (ti : JVal) (u : Nat) (db : Db) (de : JVal) :
    toolOkNE (create_task ti u db de).1 = true := by
  unfold create_task createCommit
  (repeat' split) <;> rfl

theorem list_tasks_NE (u : Nat) (db : Db) (c : JVal) :
    toolOkNE (list_tasks u db c).1 = true := rfl

theorem updateApply_NE (t : Task) (tid : JVal) (u : Nat) (db : Db)
    (ti de co : JVal) :
    toolOkNE (updateApply t tid u db ti de co).1 = true := by
  unfold updateApply
  cases updTitle ti with
  | error e => rfl
  | ok tb =>
    cases updDescr de with
    | error e => rfl
    | ok dd =>
      by_cases hb : (tb.2 || dd.2 || (updCompl co).2) = true <;>
        simp [hb, toolOkNE, taskDictUpdate]

theorem update_task_NE (tid : JVal) (u : Nat) (db : Db) (ti de co : JVal) :
    toolOkNE (update_task tid u db ti de co).1 = true := by
  unfold update_task
  cases db.tasks.filter (fun t => taskKeyMatch t tid u) with
  | nil => rfl
  | cons t rest =>
    cases rest with
    | cons t2 r2 => rfl
    | nil => exact updateApply_NE t tid u db ti de co

theorem delete_task_NE (tid : JVal) (u : Nat) (db : Db) :
    toolOkNE (delete_task tid u db).1 = true := by
  unfold delete_task
  cases db.tasks.filter (fun t => taskKeyMatch t tid u) with
  | nil => rfl
  | cons t rest =>
    cases rest with
    | cons t2 r2 => rfl
    | nil => rfl

theorem toResult_resOk (x : Except String Dict × Db)
    (h : toolOkNE x.1 = true) : resOk (toResult x).1 = true := by
  rcases x with ⟨r, d⟩
  cases r with
  | ok l => exact h
  | error e => rfl

theorem execute_tool_resOk (n : String) (a : Dict) (u : Nat) (db : Db) :
    resOk (execute_tool n a u db).1 = true := by
  unfold execute_tool
  repeat' split
  all_goals first
    | rfl
    | exact toResult_resOk _ (create_task_NE _ u db _)
    | exact toResult_resOk _ (list_tasks_NE u db _)
    | exact toResult_resOk _ (update_task_NE _ u db _ _ _)
    | exact toResult_resOk _ (delete_task_NE _ u db)

theorem execCalls_all_invOk (u : Nat) (calls : List ToolCall) (db : Db) :
    ((executeToolCalls u calls db).1.all invOk) = true := by
  induction calls generalizing db with
  | nil => rfl
  | cons c cs ih =>
    simp only [executeToolCalls, List.all_cons, Bool.and_eq_true]
    exact ⟨execute_tool_resOk c.name c.arguments u db, ih _⟩

theorem execCalls_logs (u : Nat) (calls : List ToolCall) (db : Db) :
    (executeToolCalls u calls db).2.logs = db.logs := by
  induction calls generalizing db with
  | nil => rfl
  | cons c cs ih =>
    simp only [executeToolCalls]
    rw [ih]
    exact execute_tool_logs c.name c.arguments u db

theorem fallbackCreate_logs (title : String) (u : Nat) (db : Db) :
    (fallbackCreate title u db).2.logs = db.logs := by
  unfold fallbackCreate
  cases hcr : create_task (.str title) u db .null with
  | mk r db1 =>
    have hl := create_task_logs (.str title) u db .null
    rw [hcr] at hl
    cases r with
    | ok d => exact hl
    | error e => exact hl

theorem fallbackList_logs (u : Nat) (db : Db) :
    (fallbackList u db).2.logs = db.logs := by
  unfold fallbackList
  cases hls : list_tasks u db .null with
  | mk r db1 =>
    have hl := list_tasks_snd u db .null
    rw [hls] at hl
    cases r with
    | ok d => exact congrArg Db.logs hl
    | error e => exact congrArg Db.logs hl

theorem fallbackChat_logs (msgs : List ChatMsg) (u : Nat) (db : Db) :
    (fallbackChat msgs u db).2.logs = db.logs := by
  unfold fallbackChat
  by_cases hg : isGreetingMsg (lastContentLower msgs) = true
  · simp [hg]
  · rw [if_neg hg]
    by_cases hcw : hasCreateWord (lastContentLower msgs) = true
    · rw [if_pos hcw]
      exact fallbackCreate_logs _ u db
    · rw [if_neg hcw]
      by_cases hlw : hasListWord (lastContentLower msgs) = true
      · rw [if_pos hlw]
        exact fallbackList_logs u db
      · rw [if_neg hlw]
        by_cases huw : hasUpdateWord (lastContentLower msgs) = true
        · simp [huw]
        · rw [if_neg huw]
          by_cases hdw : hasDeleteWord (lastContentLower msgs) = true
          · simp [hdw]
          · rw [if_neg hdw]
            cases msgs.getLast? with
            | none => rfl
            | some m => rfl

theorem agentChat_logs (p : Provider) (msgs : List ChatMsg) (u : Nat)
    (db : Db) : (agentChat p msgs u db).db.logs = db.logs := by
  unfold agentChat
  cases p.plan with
  | failure m => exact fallbackChat_logs msgs u db
  | success content calls =>
    dsimp only
    by_cases hc : calls.isEmpty = true
    · simp [hc]
    · rw [if_neg hc]
      cases p.ground with
      | ok text => exact execCalls_logs u calls db
      | error e =>
        exact (fallbackChat_logs msgs u _).trans (execCalls_logs u calls db)

theorem add_message_logs (cid : Nat) (role content : String) (db : Db)
    (ti : Option (List Invocation)) :
    (add_message cid role content db ti).2.logs = db.logs := rfl

theorem fallbackCreate_invOk (title : String) (u : Nat) (db : Db) :
    (match (fallbackCreate title u db).1 with
     | .ok r => r.2.all invOk
     | .error _ => true) = true := by
  unfold fallbackCreate
  cases hcr : create_task (.str title) u db .null with
  | mk r db1 =>
    have hne := create_task_NE (.str title) u db .null
    rw [hcr] at hne
    cases r with
    | ok d => simpa [invOk, toolOkNE] using hne
    | error e => simp [invOk]

theorem fallbackList_invOk (u : Nat) (db : Db) :
    (match (fallbackList u db).1 with
     | .ok r => r.2.all invOk
     | .error _ => true) = true := by
  unfold fallbackList
  cases hls : list_tasks u db .null with
  | mk r db1 =>
    have hne := list_tasks_NE u db .null
    rw [hls] at hne
    cases r with
    | ok d => simpa [invOk, toolOkNE] using hne
    | error e => simp [invOk]

theorem fallbackChat_invOk (msgs : List ChatMsg) (u : Nat) (db : Db) :
    (match (fallbackChat msgs u db).1 with
     | .ok r => r.2.all invOk
     | .error _ => true) = true := by
  unfold fallbackChat
  by_cases hg : isGreetingMsg (lastContentLower msgs) = true
  · simp [hg]
  · rw [if_neg hg]
    by_cases hcw : hasCreateWord (lastContentLower msgs) = true
    · rw [if_pos hcw]
      exact fallbackCreate_invOk _ u db
    · rw [if_neg hcw]
      by_cases hlw : hasListWord (lastContentLower msgs) = true
      · rw [if_pos hlw]
        exact fallbackList_invOk u db
      · rw [if_neg hlw]
        by_cases huw : hasUpdateWord (lastContentLower msgs) = true
        · simp [huw]
        · rw [if_neg huw]
          by_cases hdw : hasDeleteWord (lastContentLower msgs) = true
          · simp [hdw]
          · rw [if_neg hdw]
            cases msgs.getLast? with
            | none => rfl
            | some m => rfl

theorem agentChat_invOk (p : Provider) (msgs : List ChatMsg) (u : Nat)
    (db : Db) :
    (match (agentChat p msgs u db).result with
     | .ok r => r.2.all invOk
     | .error _ => true) = true := by
  unfold agentChat
  cases p.plan with
  | failure m => exact fallbackChat_invOk msgs u db
  | success content calls =>
    dsimp only
    by_cases hc : calls.isEmpty = true
    · simp [hc]
    · rw [if_neg hc]
      cases p.ground with
      | ok text => exact execCalls_all_invOk u calls db
      | error e => exact fallbackChat_invOk msgs u _

theorem logAll_ext (u mid : Nat) (invs : List Invocation) (db : Db)
    (h : invs.all invOk = true) :
    ∃ ext, (logAll u mid invs db).logs = db.logs ++ ext ∧
      ext.all auditOk = true := by
  induction invs generalizing db with
  | nil => exact ⟨[], by simp [logAll], rfl⟩
  | cons inv rest ih =>
    simp only [List.all_cons, Bool.and_eq_true] at h
    obtain ⟨h1, h2⟩ := h
    obtain ⟨ext, hext, hall⟩ := ih
      ((log_tool_invocation u inv.tool inv.inputs inv.outputs
        inv.error.isNone inv.error db (some mid)).2) h2
    refine ⟨(log_tool_invocation u inv.tool inv.inputs inv.outputs
      inv.error.isNone inv.error db (some mid)).1 :: ext, ?_, ?_⟩
    · simp only [logAll]
      rw [hext]
      simp [log_tool_invocation]
    · simp only [List.all_cons, Bool.and_eq_true]
      refine ⟨?_, hall⟩
      unfold invOk at h1
      unfold auditOk log_tool_invocation
      cases herr : inv.error with
      | none =>
        rw [herr] at h1
        cases houts : inv.outputs with
        | none => rw [houts] at h1; cases h1
        | some d =>
          rw [houts] at h1
          simp only []
          have hde : d.isEmpty = false := by simpa using h1
          simp [herr, houts, hde]
      | some e =>
        rw [herr] at h1
        have : inv.outputs = none := by
          cases houts : inv.outputs with
          | none => rfl
          | some d => rw [houts] at h1; simp at h1
        simp [herr, this]

theorem chatFinish_audit (cid u : Nat) (out : ChatOut) (dbbase : Db)
    (hlogs : out.db.logs = dbbase.logs)
    (hinv : (match out.result with
             | .ok r => r.2.all invOk
             | .error _ => true) = true) :
    (((chatFinish cid u out).2.logs.drop dbbase.logs.length).all auditOk) =
      true := by
  rcases out with ⟨res, pc, odb⟩
  cases res with
  | error e =>
    unfold chatFinish
    dsimp only
    rw [show odb.logs = dbbase.logs from hlogs, List.drop_length]
    rfl
  | ok pr =>
    rcases pr with ⟨text, invs⟩
    have hinv2 : invs.all invOk = true := by simpa using hinv
    unfold chatFinish
    dsimp only
    obtain ⟨ext, hext, hall⟩ := logAll_ext u
      (add_message cid "assistant" text odb (some invs)).1.id invs
      (add_message cid "assistant" text odb (some invs)).2 hinv2
    rw [hext]
    rw [show (add_message cid "assistant" text odb (some invs)).2.logs =
      dbbase.logs from hlogs]
    rw [List.drop_left]
    exact hall

theorem chatRouteMain_audit (p : Provider) (cid : Nat)
    (history : List ChatMsg) (message : String) (u : Nat) (db1 : Db) :
    (((chatRouteMain p cid history message u db1).2.logs.drop
        db1.logs.length).all auditOk) = true := by
  unfold chatRouteMain
  exact chatFinish_audit cid u _ db1 (agentChat_logs p _ u _)
    (agentChat_invOk p _ u _)

/-- C3: every audit record persisted by one chat turn satisfies
`success == (error_message absent and outputs present)` — the rows appended
to `tool_invocation_logs` by `chatRoute` all pass `auditOk`, for any provider
behavior, request and starting state. -/
theorem C3_audit_invariant (p : Provider) (conversation_id : Option Nat)
    (message : String) (user_id : Nat) (db : Db) :
    (((chatRoute p conversation_id message user_id db).2.logs.drop
        db.logs.length).all auditOk) = true := by
  unfold chatRoute
  by_cases h1 : pyStrip message = ""
  · simp [h1, List.drop_length]
  · rw [if_neg h1]
    by_cases h2 : 10000 < message.length
    · simp [h2, List.drop_length]
    · rw [if_neg h2]
      cases conversation_id with
      | none =>
        exact chatRouteMain_audit p (create_conversation user_id db).1.id []
          message user_id (create_conversation user_id db).2
      | some cid =>
        cases hload : load_conversation_messages cid user_id db 50 with
        | error e =>
          dsimp only
          rw [hload]
          dsimp only
          rw [List.drop_length]
          rfl
        | ok h =>
          dsimp only
          rw [hload]
          exact chatRouteMain_audit p cid h message user_id db

/-- C8 (amended): for string inputs, `create_task` fails with a validation
error exactly when the title is the empty string (not merely blank after
trimming) or longer than 500 characters, or the description is present and
longer than 5000 characters; in particular a whitespace-only title is
accepted, not rejected. -/
theorem C8_create_task_validation (t : String) (d : Option String)
    (user_id : Nat) (db : Db) :
    (∃ e, (create_task (.str t) user_id db (optStrJ d)).1 = .error e) ↔
      (t = "" ∨ 500 < t.length ∨ ∃ s, d = some s ∧ 5000 < s.length) := by
  unfold create_task
  by_cases ht0 : t = ""
  · subst ht0
    simp [pyTruthy]
  · have hpt : pyTruthy (.str t) = true := by simp [pyTruthy, ht0]
    by_cases hlen : 500 < t.length
    · simp [hpt, pyLenJ, hlen, ht0]
    · cases d with
      | none =>
        simp [hpt, pyLenJ, hlen, ht0, optStrJ, pyTruthy, createCommit]
      | some s =>
        by_cases hs0 : s = ""
        · subst hs0
          simp [hpt, pyLenJ, hlen, ht0, optStrJ, pyTruthy, createCommit]
        · have hps : pyTruthy (.str s) = true := by simp [pyTruthy, hs0]
          by_cases hde : 5000 < s.length
          · simp [hpt, pyLenJ, hlen, ht0, optStrJ, hps, hde]
          · simp [hpt, pyLenJ, hlen, ht0, optStrJ, hps, hde, createCommit]

end TodoChat
